import Mathlib

/-!
Shallow embedding of the Bloomberg-Lite ingestion pipeline
(src/storage/database.py, src/connectors/base.py, src/connectors/hackernews.py,
src/main.py) and proofs about the claims of the specification.

Modelling conventions:
* SQLite tables are lists of row structures in insertion order; the integer
  autoincrement rowid is never read by any claim and is left implicit as the
  list position.
* SQLite REAL values are `Rat`; TEXT values are `String`; dynamically typed
  Python/JSON scalar values are `PyVal`.
* Timestamps that are only carried around are `String`s; the database clock
  `datetime('now')` is passed explicitly as a `now : String` parameter to each
  write, mirroring that SQLite evaluates it at write time.  Where the textual
  format of a timestamp matters (the retention purge), timestamps are built
  from an explicit `DateTime` record by the two rendering functions used by the
  code (`datetime('now')`'s `YYYY-MM-DD HH:MM:SS` and Python `isoformat`'s
  `YYYY-MM-DDTHH:MM:SS`).
* Fallible Python code is `Except String`; raising an uncaught exception is
  `.error`.
-/

namespace BloombergLite

/-- A dynamically typed Python/JSON scalar value, as stored in the raw dicts
returned by the HN APIs and in the dynamically typed SQLite columns. -/
inductive PyVal where
  | int (n : Int)
  | str (s : String)
deriving DecidableEq, Repr

/-- The `Observation` record passed to the persistence layer
(from src/storage/models.py, whose shape §3 of the spec fixes:
`(metric_id, obs_date, value, unit, source, retrieved_at)`). -/
structure Observation where
  metric_id : String
  obs_date : String
  value : Rat
  unit : Option String
  source : String
  retrieved_at : String
deriving DecidableEq, Repr

/-- A stored row of the `observations` table (src/storage/database.py SCHEMA).
The autoincrement integer id is implicit as the list position. -/
structure ObsRow where
  metric_id : String
  obs_date : String
  value : Rat
  unit : Option String
  source : String
  retrieved_at : String
deriving DecidableEq, Repr

/-- The identity key `(metric_id, obs_date, source)` of a stored observation
(UNIQUE constraint in the SCHEMA). -/
def ObsRow.key (r : ObsRow) : String × String × String :=
  (r.metric_id, r.obs_date, r.source)

/-- The identity key of an incoming observation record. -/
def Observation.key (o : Observation) : String × String × String :=
  (o.metric_id, o.obs_date, o.source)

/-- Embedding of `upsert_observation` (src/storage/database.py lines 90-98):
`INSERT ... ON CONFLICT(metric_id, obs_date, source) DO UPDATE SET
value = excluded.value, retrieved_at = datetime('now')`.  The insert lists the
columns `(metric_id, obs_date, value, unit, source)`, so `retrieved_at` takes
the column default `datetime('now')` — the record's own `retrieved_at` is never
written.  `now` is the database clock at write time. -/
def upsert_observation (now : String) (o : Observation) (t : List ObsRow) :
    List ObsRow :=
  if t.any (fun r => decide (r.key = o.key)) then
    t.map (fun r =>
      if r.key = o.key then { r with value := o.value, retrieved_at := now }
      else r)
  else
    t ++ [{ metric_id := o.metric_id, obs_date := o.obs_date, value := o.value,
            unit := o.unit, source := o.source, retrieved_at := now }]

/-- The `Story` record passed to the persistence layer (src/storage/models.py,
shape fixed by §3: `(id, title, url, score, comment_count, author, posted_at,
source, feed_id, retrieved_at)`).  Scalar fields coming from raw JSON are
`PyVal` (Python does not coerce them); `posted_at` is the epoch value handed to
`datetime.fromtimestamp`, an injective encoding of the datetime. -/
structure Story where
  id : PyVal
  title : PyVal
  url : Option PyVal
  score : PyVal
  comments : PyVal
  author : PyVal
  posted_at : Option Int
  source : String
  feed_id : String
  retrieved_at : String
deriving DecidableEq, Repr

/-- A stored row of the `stories` table (src/storage/database.py SCHEMA).
`posted_at` stores `story.posted_at.isoformat()` or NULL; the isoformat
rendering is injective, so the column is modelled by the epoch value itself. -/
structure StoryRow where
  id : PyVal
  title : PyVal
  url : Option PyVal
  score : PyVal
  comments : PyVal
  author : PyVal
  posted_at : Option Int
  source : String
  feed_id : String
  retrieved_at : String
deriving DecidableEq, Repr

/-- Embedding of `upsert_story` (src/storage/database.py lines 101-113):
`INSERT ... ON CONFLICT(id) DO UPDATE SET score = excluded.score,
comments = excluded.comments, retrieved_at = datetime('now')`.  The insert
lists all columns except `retrieved_at`, which takes the column default
`datetime('now')`. -/
def upsert_story (now : String) (s : Story) (t : List StoryRow) :
    List StoryRow :=
  if t.any (fun r => decide (r.id = s.id)) then
    t.map (fun r =>
      if r.id = s.id then
        { r with score := s.score, comments := s.comments, retrieved_at := now }
      else r)
  else
    t ++ [{ id := s.id, title := s.title, url := s.url, score := s.score,
            comments := s.comments, author := s.author,
            posted_at := s.posted_at, source := s.source, feed_id := s.feed_id,
            retrieved_at := now }]

/-- The `MetricMeta` record (src/storage/models.py, shape fixed by §3's
MetricSnapshot). `last_updated` is the rendered `datetime.now().isoformat()`. -/
structure MetricMeta where
  id : String
  name : String
  source : String
  frequency : String
  unit : Option String
  last_value : Rat
  last_updated : String
  previous_value : Option Rat
  change : Option Rat
  change_percent : Option Rat
deriving DecidableEq, Repr

/-- A stored row of the `metrics` table (src/storage/database.py SCHEMA). -/
structure MetricRow where
  id : String
  name : String
  source : String
  frequency : String
  unit : Option String
  last_value : Rat
  last_updated : String
  previous_value : Option Rat
  change : Option Rat
  change_percent : Option Rat
deriving DecidableEq, Repr

/-- Embedding of `update_metric_meta` (src/storage/database.py lines 152-167):
insert keyed by `id`; on conflict updates `last_value`, `last_updated`,
`previous_value`, `change`, `change_percent` (not name/source/frequency/unit). -/
def update_metric_meta (m : MetricMeta) (t : List MetricRow) : List MetricRow :=
  if t.any (fun r => decide (r.id = m.id)) then
    t.map (fun r =>
      if r.id = m.id then
        { r with last_value := m.last_value, last_updated := m.last_updated,
                 previous_value := m.previous_value, change := m.change,
                 change_percent := m.change_percent }
      else r)
  else
    t ++ [{ id := m.id, name := m.name, source := m.source,
            frequency := m.frequency, unit := m.unit,
            last_value := m.last_value, last_updated := m.last_updated,
            previous_value := m.previous_value, change := m.change,
            change_percent := m.change_percent }]

/-- A wall-clock datetime, used where the textual timestamp format matters. -/
structure DateTime where
  year : Nat
  month : Nat
  day : Nat
  hour : Nat
  minute : Nat
  second : Nat
deriving DecidableEq, Repr

/-- Zero-pad a number to two digits, as both timestamp formats do. -/
def pad2 (n : Nat) : String :=
  if n < 10 then "0" ++ toString n else toString n

/-- Zero-pad a number to four digits, as both timestamp formats do. -/
def pad4 (n : Nat) : String :=
  if n < 10 then "000" ++ toString n
  else if n < 100 then "00" ++ toString n
  else if n < 1000 then "0" ++ toString n
  else toString n

/-- The text SQLite's `datetime('now')` stores: `YYYY-MM-DD HH:MM:SS`
(space separator, UTC clock). -/
def DateTime.sqliteFormat (t : DateTime) : String :=
  pad4 t.year ++ "-" ++ pad2 t.month ++ "-" ++ pad2 t.day ++ " " ++
    pad2 t.hour ++ ":" ++ pad2 t.minute ++ ":" ++ pad2 t.second

/-- The text Python's `datetime.isoformat()` produces for a whole-second
datetime: `YYYY-MM-DDTHH:MM:SS` ('T' separator, local clock). -/
def DateTime.isoFormat (t : DateTime) : String :=
  pad4 t.year ++ "-" ++ pad2 t.month ++ "-" ++ pad2 t.day ++ "T" ++
    pad2 t.hour ++ ":" ++ pad2 t.minute ++ ":" ++ pad2 t.second

/-- A strictly monotone ranking of calendar-valid datetimes, used to state
which of two datetimes is chronologically earlier. -/
def DateTime.rank (t : DateTime) : Nat :=
  ((((t.year * 13 + t.month) * 32 + t.day) * 24 + t.hour) * 60 + t.minute)
    * 60 + t.second

/-- Bytewise (memcmp) strict order on character lists, the comparison SQLite's
default BINARY collation applies to TEXT values; on the ASCII timestamp
strings involved it coincides with code-point order. -/
def memcmpLt : List Char → List Char → Bool
  | [], [] => false
  | [], _ :: _ => true
  | _ :: _, [] => false
  | a :: as, b :: bs =>
      if a < b then true
      else if b < a then false
      else memcmpLt as bs

/-- SQLite's `<` on two TEXT values. -/
def textLt (a b : String) : Bool := memcmpLt a.data b.data

/-- Embedding of `cleanup_old_stories` (src/storage/database.py lines 142-149):
`cutoff = (datetime.now() - timedelta(days=days)).isoformat()` then
`DELETE FROM stories WHERE retrieved_at < cutoff`, returning the rowcount.
`cutoffDt` stands for the already-subtracted `datetime.now() - timedelta(days)`
(the calendar subtraction itself is not modelled); the comparison is SQLite's
binary TEXT order `textLt`.  Returns (rows kept, count deleted). -/
def cleanup_old_stories (cutoffDt : DateTime) (t : List StoryRow) :
    List StoryRow × Nat :=
  (t.filter (fun s => !textLt s.retrieved_at cutoffDt.isoFormat),
   (t.filter (fun s => textLt s.retrieved_at cutoffDt.isoFormat)).length)

/-- Modelled from the spec: `calculate_change` lives in
src/transforms/calculations.py, which is not under src/; only its call site
(src/main.py lines 134-137) and §3's invariant describe it:
`change = last_value - previous_value` when both present,
`change_percent = change / previous_value * 100`, undefined/omitted when
`previous_value` is zero or absent. -/
def calculate_change (last : Rat) (previous : Option Rat) :
    Option Rat × Option Rat :=
  match previous with
  | none => (none, none)
  | some p =>
      if p = 0 then (some (last - p), none)
      else (some (last - p), some ((last - p) / p * 100))

/-- The metric configuration record built by the orchestrator (src/main.py
lines 104-118 / src/connectors/base.py ConnectorConfig).  Only the fields the
orchestrator's control flow and snapshot computation read are modelled; the
source-specific identifier fields are opaque to the orchestrator. -/
structure MetricEntry where
  id : String
  name : String
  source : String
  frequency : String
  unit : Option String
deriving DecidableEq, Repr

/-- Embedding of the snapshot computation of `fetch_metrics` (src/main.py
lines 129-151): `latest = observations[0]`, `previous = observations[1]` when
present, `calculate_change(latest.value, previous.value if previous else
None)`, then the `MetricMeta` record; `none` when the observation list is
empty (no meta update happens). `now` is the rendered `datetime.now()`. -/
def computeMeta (m : MetricEntry) (now : String)
    (observations : List Observation) : Option MetricMeta :=
  match observations with
  | [] => none
  | latest :: rest =>
      let previous := rest.head?
      let cc := calculate_change latest.value (previous.map (·.value))
      some { id := m.id, name := m.name, source := m.source,
             frequency := m.frequency, unit := m.unit,
             last_value := latest.value, last_updated := now,
             previous_value := previous.map (·.value),
             change := cc.1, change_percent := cc.2 }

/-- The `FetchResult` dataclass (src/connectors/base.py lines 52-63). -/
structure FetchResult (α : Type) where
  success : Bool
  data : List α
  error : Option String := none
  source : String := ""
  fetched_at : String := ""
deriving Repr

/-- How Python renders `result.error` inside `f"Fetch failed: {result.error}"`:
the string itself, or the text `None` for an absent error. -/
def renderErr : Option String → String
  | some e => e
  | none => "None"

/-- Embedding of `fetch_and_normalize` (src/connectors/base.py lines 107-114
and 132-137, both textually identical): raise
`RuntimeError(f"Fetch failed: {result.error}")` when `result.success` is
false, otherwise return `normalize(config, result.data)`.  The connector's
`normalize` is abstracted as the function argument `normalize`, total per its
declared signature (`-> list[Observation]` / `-> list[Story]`). -/
def fetch_and_normalize {α β : Type} (normalize : List α → List β)
    (result : FetchResult α) : Except String (List β) :=
  if result.success then .ok (normalize result.data)
  else .error ("Fetch failed: " ++ renderErr result.error)

/-- A raw JSON object (Python dict) as returned by the HN APIs: an association
list of string keys to scalar values.  `dict.get` is the first matching key;
a dict is falsy exactly when it is empty. -/
def RawItem : Type := List (String × PyVal)

instance : DecidableEq RawItem := by
  unfold RawItem
  infer_instance

/-- Python `item.get(k)`: the value at key `k`, if present. -/
def RawItem.get (it : RawItem) (k : String) : Option PyVal :=
  (it.find? (fun p => decide (p.1 = k))).map (·.2)

/-- Python truthiness of the whole dict: a dict is falsy iff empty. -/
def RawItem.isEmptyDict (it : RawItem) : Bool :=
  match it with
  | [] => true
  | _ :: _ => false

/-- The FeedConfig record (src/connectors/base.py lines 36-49). -/
structure FeedConfig where
  id : String
  name : String
  source : String
  limit : Nat := 20
  endpoint : Option String := none
  query : Option String := none
  tags : Option String := none
  time_range : Option String := none
deriving DecidableEq, Repr

/-- The `posted_at` computation of `HNFirebaseConnector.normalize`
(src/connectors/hackernews.py lines 100-103): `posted_at = None;
if item.get("time"): posted_at = datetime.fromtimestamp(item["time"])`.
A falsy value (missing key, 0, empty string) leaves it `None`; a nonzero
integer is converted; `fromtimestamp` of a non-numeric value raises
`TypeError` (modelled total on integers otherwise). -/
def parsePostedAt (v : Option PyVal) : Except String (Option Int) :=
  match v with
  | none => .ok none
  | some (.int 0) => .ok none
  | some (.str "") => .ok none
  | some (.int n) => .ok (some n)
  | some (.str _) => .error "TypeError: fromtimestamp"

/-- Embedding of `HNFirebaseConnector.normalize` (src/connectors/hackernews.py
lines 92-119).  Per item: `if not item: continue` skips a falsy (empty) dict;
then `posted_at` is computed; then the `Story` constructor call evaluates
`item["id"]` — which raises `KeyError` when the key is absent — and the
defaulted `item.get(...)` accesses.  An uncaught exception aborts the whole
batch, hence the `Except` result. -/
def HNFirebaseConnector.normalize (config : FeedConfig) (now : String) :
    List RawItem → Except String (List Story)
  | [] => .ok []
  | item :: rest =>
      if item.isEmptyDict then HNFirebaseConnector.normalize config now rest
      else do
        let posted ← parsePostedAt (item.get "time")
        let idv ← match item.get "id" with
          | some v => Except.ok v
          | none => Except.error "KeyError: id"
        let s : Story :=
          { id := idv, title := (item.get "title").getD (.str ""),
            url := item.get "url", score := (item.get "score").getD (.int 0),
            comments := (item.get "descendants").getD (.int 0),
            author := (item.get "by").getD (.str ""), posted_at := posted,
            source := "hn_firebase", feed_id := config.id,
            retrieved_at := now }
        let tail ← HNFirebaseConnector.normalize config now rest
        .ok (s :: tail)

/-- The per-item acceptance test of `HNFirebaseConnector.fetch` (line 61):
`if item and item.get("type") == "story"`. -/
def isStoryItem (it : RawItem) : Bool :=
  !it.isEmptyDict && decide (it.get "type" = some (.str "story"))

/-- Embedding of `HNFirebaseConnector.fetch` (src/connectors/hackernews.py
lines 31-78).  The network is abstracted: `indexResult` is the outcome of the
story-id index request (`.error` = `requests.RequestException`, caught and
turned into a failed FetchResult), and `resolver` is `_fetch_item` (lines
80-90), which returns `None` on any per-item exception — the
`try/except: continue` around `future.result()` likewise drops failures.  The
truncated id list is resolved and items that are falsy or whose `type` is not
`"story"` are dropped.  `as_completed` yields in nondeterministic order;
normalization and storage treat the batch as unordered, and the model keeps
index order. -/
def HNFirebaseConnector.fetch (resolver : Int → Option RawItem)
    (indexResult : Except String (List Int)) (config : FeedConfig) :
    FetchResult RawItem :=
  let lim := if config.limit = 0 then 20 else config.limit
  match indexResult with
  | .error e => { success := false, data := [], error := some e,
                  source := "hn_firebase" }
  | .ok allIds =>
      let stories := ((allIds.take lim).filterMap resolver).filter isStoryItem
      { success := true, data := stories, source := "hn_firebase" }

/-- The database state the orchestrator writes to: the three tables of the
SCHEMA (src/storage/database.py lines 19-65). -/
structure DB where
  observations : List ObsRow
  stories : List StoryRow
  metrics : List MetricRow
deriving DecidableEq, Repr

/-- The metric sources `get_connector` (src/main.py lines 80-94) recognizes. -/
def knownMetricSources : List String := ["fred", "ecb", "worldbank"]

/-- Embedding of `get_connector` (src/main.py lines 80-94): an unknown source
tag yields no connector; a known source whose constructor raises `ValueError`
(e.g. a missing API key — the constructors live in the fred/ecb/worldbank
connector modules, not under src/) is caught, logged and also yields no
connector.  The connector object itself carries no state the orchestrator
reads, so it is modelled as `Unit`. -/
def get_connector (initFails : String → Bool) (source : String) : Option Unit :=
  if source ∈ knownMetricSources then
    if initFails source then none else some ()
  else none

/-- Embedding of one iteration of the metric loop of `fetch_metrics`
(src/main.py lines 96-156).  `outcome` abstracts the connector's
`fetch_and_normalize` for this metric: `.error` is any exception raised inside
the `try` block (fetch failure, normalization error), caught by the
`except Exception` at lines 155-156, which logs and leaves the database
untouched by this metric's snapshot step.  On success every observation is
upserted and, when the list is nonempty, the snapshot is recomputed and
upserted. -/
def processMetric (initFails : String → Bool)
    (outcome : MetricEntry → Except String (List Observation)) (now : String)
    (db : DB) (m : MetricEntry) : DB :=
  match get_connector initFails m.source with
  | none => db
  | some _ =>
      match outcome m with
      | .error _ => db
      | .ok observations =>
          let obsTable :=
            observations.foldl (fun t o => upsert_observation now o t)
              db.observations
          let db1 := { db with observations := obsTable }
          match computeMeta m now observations with
          | none => db1
          | some meta =>
              { db1 with metrics := update_metric_meta meta db1.metrics }

/-- Embedding of `fetch_metrics` (src/main.py lines 67-157): the metric loop,
each entry processed by `processMetric`; no exception escapes an iteration, so
the fold is total. -/
def fetch_metrics (initFails : String → Bool)
    (outcome : MetricEntry → Except String (List Observation)) (now : String)
    (ms : List MetricEntry) (db : DB) : DB :=
  ms.foldl (processMetric initFails outcome now) db

/-- The feed entry of the orchestrator's feed loop (src/main.py lines
175-192); the control flow reads `id`, `name` and `source`. -/
structure FeedEntry where
  id : String
  name : String
  source : String
deriving DecidableEq, Repr

/-- The feed sources the `connectors` dict of `fetch_feeds`
(src/main.py lines 170-173) contains. -/
def knownFeedSources : List String := ["hn_firebase", "hn_algolia"]

/-- Embedding of one iteration of the feed loop of `fetch_feeds` (src/main.py
lines 175-206): unknown source tag → logged and skipped; otherwise the
connector's `fetch_and_normalize` outcome is `outcome f`, any exception caught
by the `except Exception` at lines 205-206; on success every story is
upserted. -/
def processFeed (outcome : FeedEntry → Except String (List Story))
    (now : String) (db : DB) (f : FeedEntry) : DB :=
  if f.source ∈ knownFeedSources then
    match outcome f with
    | .error _ => db
    | .ok stories =>
        { db with stories :=
            stories.foldl (fun t s => upsert_story now s t) db.stories }
  else db

/-- Embedding of `fetch_feeds` (src/main.py lines 159-206). -/
def fetch_feeds (outcome : FeedEntry → Except String (List Story))
    (now : String) (fs : List FeedEntry) (db : DB) : DB :=
  fs.foldl (processFeed outcome now) db

/-! ### Helper lemmas about the persistence layer -/

/-- Number of stored observation rows with a given identity key. -/
def obsCount (k : String × String × String) (t : List ObsRow) : Nat :=
  t.countP (fun r => decide (r.key = k))

theorem obsRow_update_key (r : ObsRow) (v : Rat) (n : String) :
    ({ r with value := v, retrieved_at := n } : ObsRow).key = r.key := rfl

theorem obsRow_update_eq_self {r : ObsRow} {v : Rat} {n : String}
    (hv : r.value = v) (hn : r.retrieved_at = n) :
    ({ r with value := v, retrieved_at := n } : ObsRow) = r := by
  cases r
  cases hv
  cases hn
  rfl

theorem upsert_observation_count (now : String) (o : Observation)
    (t : List ObsRow) :
    obsCount o.key (upsert_observation now o t) = max 1 (obsCount o.key t) := by
  unfold upsert_observation obsCount
  by_cases h : t.any (fun r => decide (r.key = o.key)) = true
  · rw [if_pos h, List.countP_map]
    have hstep : ∀ r ∈ t,
        (((fun r : ObsRow => decide (r.key = o.key)) ∘
          (fun r : ObsRow => if r.key = o.key then
            { r with value := o.value, retrieved_at := now } else r)) r = true ↔
        (fun r : ObsRow => decide (r.key = o.key)) r = true) := by
      intro r _
      by_cases hk : r.key = o.key
      · simp only [Function.comp_apply, if_pos hk, obsRow_update_key]
      · simp only [Function.comp_apply, if_neg hk]
    rw [List.countP_congr hstep]
    have hpos : 1 ≤ t.countP (fun r => decide (r.key = o.key)) := by
      rcases List.any_eq_true.mp h with ⟨r, hr, hpr⟩
      exact List.countP_pos_iff.mpr ⟨r, hr, hpr⟩
    exact (Nat.max_eq_right hpos).symm
  · rw [if_neg h, List.countP_append]
    have hz : t.countP (fun r => decide (r.key = o.key)) = 0 := by
      apply List.countP_eq_zero.mpr
      intro r hr hpr
      exact h (List.any_eq_true.mpr ⟨r, hr, hpr⟩)
    rw [hz]
    simp [Observation.key, ObsRow.key]

theorem upsert_observation_fresh (now : String) (o : Observation)
    (t : List ObsRow) :
    ∀ r ∈ upsert_observation now o t, r.key = o.key →
      r.value = o.value ∧ r.retrieved_at = now := by
  unfold upsert_observation
  by_cases h : t.any (fun r => decide (r.key = o.key)) = true
  · rw [if_pos h]
    intro r hr hk
    rcases List.mem_map.mp hr with ⟨r0, hr0, hr0eq⟩
    by_cases hk0 : r0.key = o.key
    · rw [if_pos hk0] at hr0eq
      rw [← hr0eq]
      exact ⟨rfl, rfl⟩
    · rw [if_neg hk0] at hr0eq
      rw [← hr0eq] at hk
      exact absurd hk hk0
  · rw [if_neg h]
    intro r hr hk
    rcases List.mem_append.mp hr with hin | hnew
    · exfalso
      exact h (List.any_eq_true.mpr ⟨r, hin, decide_eq_true hk⟩)
    · rcases List.mem_singleton.mp hnew with rfl
      exact ⟨rfl, rfl⟩

theorem upsert_observation_mem_key (now : String) (o : Observation)
    (t : List ObsRow) :
    (upsert_observation now o t).any (fun r => decide (r.key = o.key)) = true := by
  apply List.any_eq_true.mpr
  have hpos : 0 < obsCount o.key (upsert_observation now o t) := by
    rw [upsert_observation_count]
    omega
  rcases List.countP_pos_iff.mp hpos with ⟨r, hr, hpr⟩
  exact ⟨r, hr, hpr⟩

theorem upsert_observation_idem (now : String) (o : Observation)
    (t : List ObsRow) :
    upsert_observation now o (upsert_observation now o t) =
      upsert_observation now o t := by
  have hany := upsert_observation_mem_key now o t
  conv_lhs => rw [upsert_observation, if_pos hany]
  have hid : ∀ r ∈ upsert_observation now o t,
      (if r.key = o.key then
        ({ r with value := o.value, retrieved_at := now } : ObsRow)
      else r) = r := by
    intro r hr
    by_cases hk : r.key = o.key
    · rw [if_pos hk]
      rcases upsert_observation_fresh now o t r hr hk with ⟨hv, hn⟩
      exact obsRow_update_eq_self hv hn
    · exact if_neg hk
  rw [List.map_congr_left hid, List.map_id']

/-- The fields of a stored story row that the conflict branch of
`upsert_story` leaves untouched: everything except `score`, `comments` and
`retrieved_at`. -/
def storyFrame (r : StoryRow) :
    PyVal × PyVal × Option PyVal × PyVal × Option Int × String × String :=
  (r.id, r.title, r.url, r.author, r.posted_at, r.source, r.feed_id)

theorem upsert_story_frame (now : String) (s : Story) (t : List StoryRow)
    (h : t.any (fun r => decide (r.id = s.id)) = true) :
    (upsert_story now s t).map storyFrame = t.map storyFrame := by
  unfold upsert_story
  rw [if_pos h, List.map_map]
  apply List.map_congr_left
  intro r _
  by_cases hk : r.id = s.id
  · simp [hk, storyFrame]
  · simp [hk]

theorem upsert_story_mem_key (now : String) (s : Story) (t : List StoryRow) :
    (upsert_story now s t).any (fun r => decide (r.id = s.id)) = true := by
  unfold upsert_story
  by_cases h : t.any (fun r => decide (r.id = s.id)) = true
  · rw [if_pos h]
    rcases List.any_eq_true.mp h with ⟨r, hr, hpr⟩
    apply List.any_eq_true.mpr
    refine ⟨if r.id = s.id then
      { r with score := s.score, comments := s.comments, retrieved_at := now }
      else r, List.mem_map_of_mem _ hr, ?_⟩
    rw [if_pos (of_decide_eq_true hpr)]
    exact hpr
  · rw [if_neg h]
    apply List.any_eq_true.mpr
    exact ⟨_, List.mem_append_right t (List.mem_singleton_self _),
      decide_eq_true rfl⟩

theorem upsert_story_fresh (now : String) (s : Story) (t : List StoryRow) :
    ∀ r ∈ upsert_story now s t, r.id = s.id → r.retrieved_at = now := by
  unfold upsert_story
  by_cases h : t.any (fun r => decide (r.id = s.id)) = true
  · rw [if_pos h]
    intro r hr hk
    rcases List.mem_map.mp hr with ⟨r0, hr0, hr0eq⟩
    by_cases hk0 : r0.id = s.id
    · rw [if_pos hk0] at hr0eq
      rw [← hr0eq]
    · rw [if_neg hk0] at hr0eq
      rw [← hr0eq] at hk
      exact absurd hk hk0
  · rw [if_neg h]
    intro r hr hk
    rcases List.mem_append.mp hr with hin | hnew
    · exfalso
      exact h (List.any_eq_true.mpr ⟨r, hin, decide_eq_true hk⟩)
    · rcases List.mem_singleton.mp hnew with rfl
      rfl

/-! ### Claim theorems -/

/-- C1: upserting the same `(metric_id, obs_date, source)` identity key twice
with different values leaves exactly one stored row for that key, holding the
second call's value; repeating the identical call changes nothing further, and
no duplicate row is created (the stored table, which satisfies the UNIQUE
constraint `obsCount ≤ 1` beforehand, satisfies `obsCount = 1` afterwards). -/
theorem upsert_observation_twice_one_row (t : List ObsRow)
    (o1 o2 : Observation) (now1 now2 : String) (hkey : o1.key = o2.key)
    (hinv : obsCount o2.key t ≤ 1) :
    obsCount o2.key (upsert_observation now2 o2 (upsert_observation now1 o1 t))
      = 1 ∧
    (∀ r ∈ upsert_observation now2 o2 (upsert_observation now1 o1 t),
      r.key = o2.key → r.value = o2.value) ∧
    upsert_observation now2 o2
        (upsert_observation now2 o2 (upsert_observation now1 o1 t)) =
      upsert_observation now2 o2 (upsert_observation now1 o1 t) := by
  refine ⟨?_, ?_, upsert_observation_idem now2 o2 _⟩
  · rw [upsert_observation_count, ← hkey, upsert_observation_count, hkey]
    omega
  · intro r hr hk
    exact (upsert_observation_fresh now2 o2 _ r hr hk).1

/-- Witness for C1 at a concrete input: the empty table and two observations
of the same key with values 100 and 105. -/
theorem upsert_observation_twice_one_row_witness :
    obsCount ("cpi", "2024-01-01", "fred")
      (upsert_observation "t2" ⟨"cpi", "2024-01-01", 105, some "idx", "fred", "y"⟩
        (upsert_observation "t1"
          ⟨"cpi", "2024-01-01", 100, some "idx", "fred", "x"⟩ [])) = 1 ∧
    (∀ r ∈ upsert_observation "t2"
        ⟨"cpi", "2024-01-01", 105, some "idx", "fred", "y"⟩
        (upsert_observation "t1"
          ⟨"cpi", "2024-01-01", 100, some "idx", "fred", "x"⟩ []),
      r.key = ("cpi", "2024-01-01", "fred") → r.value = 105) ∧
    upsert_observation "t2" ⟨"cpi", "2024-01-01", 105, some "idx", "fred", "y"⟩
        (upsert_observation "t2"
          ⟨"cpi", "2024-01-01", 105, some "idx", "fred", "y"⟩
          (upsert_observation "t1"
            ⟨"cpi", "2024-01-01", 100, some "idx", "fred", "x"⟩ [])) =
      upsert_observation "t2"
        ⟨"cpi", "2024-01-01", 105, some "idx", "fred", "y"⟩
        (upsert_observation "t1"
          ⟨"cpi", "2024-01-01", 100, some "idx", "fred", "x"⟩ []) :=
  upsert_observation_twice_one_row []
    ⟨"cpi", "2024-01-01", 100, some "idx", "fred", "x"⟩
    ⟨"cpi", "2024-01-01", 105, some "idx", "fred", "y"⟩ "t1" "t2"
    (by decide) (by decide)

/-- C3: a second `upsert_story` with the same `id` never changes the stored
`title`, `url`, `author`, `posted_at` (nor `source`, `feed_id`) of any row:
the projection away from the volatile fields `score`, `comments`,
`retrieved_at` is identical before and after the second call. -/
theorem upsert_story_frame_immutable (t : List StoryRow) (s s' : Story)
    (now1 now2 : String) (hid : s'.id = s.id) :
    (upsert_story now2 s' (upsert_story now1 s t)).map storyFrame =
      (upsert_story now1 s t).map storyFrame := by
  apply upsert_story_frame
  rw [hid]
  exact upsert_story_mem_key now1 s t

/-- Witness for C3 at a concrete input: the same story id re-upserted with a
different title, score and comments. -/
theorem upsert_story_frame_immutable_witness :
    (upsert_story "t2"
        ⟨.int 7, .str "changed", none, .int 50, .int 3, .str "bob", some 100,
          "hn_firebase", "top", "r2"⟩
        (upsert_story "t1"
          ⟨.int 7, .str "orig", some (.str "u"), .int 10, .int 1, .str "alice",
            some 99, "hn_firebase", "top", "r1"⟩ [])).map storyFrame =
      (upsert_story "t1"
        ⟨.int 7, .str "orig", some (.str "u"), .int 10, .int 1, .str "alice",
          some 99, "hn_firebase", "top", "r1"⟩ []).map storyFrame :=
  upsert_story_frame_immutable []
    ⟨.int 7, .str "orig", some (.str "u"), .int 10, .int 1, .str "alice",
      some 99, "hn_firebase", "top", "r1"⟩
    ⟨.int 7, .str "changed", none, .int 50, .int 3, .str "bob", some 100,
      "hn_firebase", "top", "r2"⟩ "t1" "t2" rfl

/-- C10: both upserts set the stored `retrieved_at` of the affected row to the
database clock at write time — on first insert via the column default and on
conflict via `datetime('now')` — and the `retrieved_at` carried by the
passed-in record never influences the persisted state. -/
theorem upsert_retrieved_at_db_clock (now : String) (o : Observation)
    (x : String) (t : List ObsRow) (s : Story) (y : String)
    (u : List StoryRow) :
    upsert_observation now { o with retrieved_at := x } t =
        upsert_observation now o t ∧
    upsert_story now { s with retrieved_at := y } u = upsert_story now s u ∧
    (∀ r ∈ upsert_observation now o t, r.key = o.key →
      r.retrieved_at = now) ∧
    (∀ r ∈ upsert_story now s u, r.id = s.id → r.retrieved_at = now) :=
  ⟨rfl, rfl,
   fun r hr hk => (upsert_observation_fresh now o t r hr hk).2,
   upsert_story_fresh now s u⟩

/-- Witness for C10: inserting a record carrying the bogus `retrieved_at`
value `bogus` into an empty table gives the same state as carrying `zzz`, and
the freshly stored row's `retrieved_at` is the database clock `db1`. -/
theorem upsert_retrieved_at_db_clock_witness :
    upsert_observation "db1"
        ⟨"cpi", "2024-01-01", 100, none, "fred", "zzz"⟩ [] =
      upsert_observation "db1"
        ⟨"cpi", "2024-01-01", 100, none, "fred", "bogus"⟩ [] ∧
    (⟨"cpi", "2024-01-01", 100, none, "fred", "db1"⟩ : ObsRow).retrieved_at
      = "db1" ∧
    (⟨.int 7, .str "t", none, .int 1, .int 2, .str "a", none, "hn_firebase",
        "top", "db1"⟩ : StoryRow).retrieved_at = "db1" :=
  have h := upsert_retrieved_at_db_clock "db1"
    ⟨"cpi", "2024-01-01", 100, none, "fred", "bogus"⟩ "zzz" []
    ⟨.int 7, .str "t", none, .int 1, .int 2, .str "a", none, "hn_firebase",
      "top", "bogus"⟩ "yyy" []
  ⟨h.1, h.2.2.1 _ (by decide) (by decide), h.2.2.2 _ (by decide) (by decide)⟩

/-! ### Text order and date helpers -/

theorem memcmpLt_self (l : List Char) : memcmpLt l l = false := by
  induction l with
  | nil => rfl
  | cons a as ih => simp [memcmpLt, lt_irrefl, ih]

/-- SQLite's `≤` on TEXT, derived from `textLt`. -/
def textLe (a b : String) : Bool := !textLt b a

theorem textLe_refl (s : String) : textLe s s = true := by
  simp [textLe, textLt, memcmpLt_self]

theorem filterMap_filter_ne {α β : Type} [DecidableEq α] (g : α → Option β)
    (j : α) (hj : g j = none) (l : List α) :
    (l.filter (fun i => decide (i ≠ j))).filterMap g = l.filterMap g := by
  induction l with
  | nil => rfl
  | cons a as ih =>
      simp only [ne_eq, decide_not] at ih ⊢
      by_cases ha : a = j
      · subst ha
        simp [List.filter_cons, List.filterMap_cons, hj, ih]
      · cases hg : g a <;>
          simp [List.filter_cons, List.filterMap_cons, ha, hg, ih]

/-- C2: the retention purge is wrong at the day boundary.  The code compares
the stored `retrieved_at` (SQLite `datetime('now')`, `YYYY-MM-DD HH:MM:SS`)
against a cutoff rendered by Python `isoformat()` (`YYYY-MM-DDTHH:MM:SS`) as
raw text.  With the purge run at 2024-01-15 06:00 and a 7-day window (cutoff
2024-01-08 06:00): a story retrieved 2024-01-01 10:00 is correctly deleted and
a story retrieved 2024-01-09 01:00 correctly retained, but a story retrieved
2024-01-08 12:00 — six hours NEWER than the cutoff, as the rank comparison
states — is also deleted, because the space separator sorts below `'T'`, so
every same-day timestamp compares below the cutoff text. -/
theorem cleanup_old_stories_day_boundary_bug :
    cleanup_old_stories ⟨2024, 1, 8, 6, 0, 0⟩
      [⟨.int 1, .str "stale", none, .int 0, .int 0, .str "a", none,
          "hn_firebase", "top", DateTime.sqliteFormat ⟨2024, 1, 1, 10, 0, 0⟩⟩,
       ⟨.int 2, .str "newer than cutoff", none, .int 0, .int 0, .str "b", none,
          "hn_firebase", "top", DateTime.sqliteFormat ⟨2024, 1, 8, 12, 0, 0⟩⟩,
       ⟨.int 3, .str "fresh", none, .int 0, .int 0, .str "c", none,
          "hn_firebase", "top", DateTime.sqliteFormat ⟨2024, 1, 9, 1, 0, 0⟩⟩] =
      ([⟨.int 3, .str "fresh", none, .int 0, .int 0, .str "c", none,
          "hn_firebase", "top", DateTime.sqliteFormat ⟨2024, 1, 9, 1, 0, 0⟩⟩],
        2) ∧
    DateTime.rank ⟨2024, 1, 8, 6, 0, 0⟩ < DateTime.rank ⟨2024, 1, 8, 12, 0, 0⟩ ∧
    DateTime.rank ⟨2024, 1, 1, 10, 0, 0⟩ < DateTime.rank ⟨2024, 1, 8, 6, 0, 0⟩ := by
  refine ⟨?_, by decide, by decide⟩
  decide

/-- C5: a single malformed item does fail the whole batch.  An item that is a
non-empty dict without an `"id"` key is not caught by the `if not item` guard,
and `item["id"]` raises `KeyError`, aborting `HNFirebaseConnector.normalize`
for the entire batch — the well-formed sibling item, which normalizes fine on
its own, is lost too. -/
theorem hn_firebase_normalize_malformed_item_aborts_batch :
    HNFirebaseConnector.normalize
      ⟨"top", "Top", "hn_firebase", 20, none, none, none, none⟩ "now"
      [[("id", .int 1), ("title", .str "a"), ("type", .str "story")],
       [("title", .str "b")]] = .error "KeyError: id" ∧
    HNFirebaseConnector.normalize
      ⟨"top", "Top", "hn_firebase", 20, none, none, none, none⟩ "now"
      [[("id", .int 1), ("title", .str "a"), ("type", .str "story")]] =
      .ok [⟨.int 1, .str "a", none, .int 0, .int 0, .str "", none,
            "hn_firebase", "top", "now"⟩] ∧
    RawItem.isEmptyDict [("title", .str "b")] = false :=
  ⟨rfl, rfl, rfl⟩

/-- C6: the composed `fetch_and_normalize` raises `RuntimeError` carrying the
upstream error string exactly when the fetch outcome has `success = false`,
and otherwise returns exactly `normalize(config, result.data)`; it raises iff
the fetch failed. -/
theorem fetch_and_normalize_raises_iff_fetch_failed {α β : Type}
    (normalize : List α → List β) (r : FetchResult α) :
    (fetch_and_normalize normalize r =
        Except.error ("Fetch failed: " ++ renderErr r.error) ↔
      r.success = false) ∧
    (r.success = true →
      fetch_and_normalize normalize r = Except.ok (normalize r.data)) ∧
    ((∃ msg, fetch_and_normalize normalize r = Except.error msg) ↔
      r.success = false) := by
  cases hs : r.success with
  | false => simp [fetch_and_normalize, hs]
  | true => simp [fetch_and_normalize, hs]

/-- Witness for C6: a failed fetch outcome with error text `boom` raises the
`Fetch failed: boom` error, and a successful one returns the normalized
list. -/
theorem fetch_and_normalize_witness :
    fetch_and_normalize (fun _ : List RawItem => ([] : List Story))
        ⟨false, [], some "boom", "hn_firebase", ""⟩ =
      Except.error ("Fetch failed: " ++ renderErr (some "boom")) ∧
    fetch_and_normalize (fun _ : List RawItem => ([] : List Story))
        ⟨true, [], none, "hn_firebase", ""⟩ =
      Except.ok ([] : List Story) :=
  ⟨(fetch_and_normalize_raises_iff_fetch_failed _ _).1.mpr rfl,
   (fetch_and_normalize_raises_iff_fetch_failed _ _).2.1 rfl⟩

/-- C7: when the index fetch of `HNFirebaseConnector.fetch` succeeds, the
outcome is always a success; if every individual resolution fails the data is
the empty list (still a success); and one id's resolution failure only
excludes that id — the result is what resolving the remaining ids of the
truncated window yields. -/
theorem hn_firebase_fetch_item_failures_swallowed
    (resolver : Int → Option RawItem) (ids : List Int) (cfg : FeedConfig)
    (j : Int) :
    (HNFirebaseConnector.fetch resolver (.ok ids) cfg).success = true ∧
    ((∀ i ∈ ids.take (if cfg.limit = 0 then 20 else cfg.limit),
        resolver i = none) →
      (HNFirebaseConnector.fetch resolver (.ok ids) cfg).data = []) ∧
    (resolver j = none →
      (HNFirebaseConnector.fetch resolver (.ok ids) cfg).data =
        (((ids.take (if cfg.limit = 0 then 20 else cfg.limit)).filter
            (fun i => decide (i ≠ j))).filterMap resolver).filter
          isStoryItem) := by
  refine ⟨rfl, ?_, ?_⟩
  · intro hall
    show (((ids.take _).filterMap resolver).filter isStoryItem) = []
    rw [List.filterMap_eq_nil_iff.mpr hall]
    rfl
  · intro hj
    show (((ids.take _).filterMap resolver).filter isStoryItem) = _
    rw [filterMap_filter_ne resolver j hj]

/-- Witness for C7: three ids, all of whose resolutions fail, yield a
successful outcome with an empty item list; excluding the failing id 2 leaves
the other resolutions intact. -/
theorem hn_firebase_fetch_witness :
    (HNFirebaseConnector.fetch (fun _ => none) (.ok [1, 2, 3])
        ⟨"top", "Top", "hn_firebase", 20, none, none, none, none⟩).success
      = true ∧
    (HNFirebaseConnector.fetch (fun _ => none) (.ok [1, 2, 3])
        ⟨"top", "Top", "hn_firebase", 20, none, none, none, none⟩).data = [] ∧
    (HNFirebaseConnector.fetch (fun _ => none) (.ok [1, 2, 3])
        ⟨"top", "Top", "hn_firebase", 20, none, none, none, none⟩).data =
      ((([1, 2, 3].take 20).filter (fun i => decide (i ≠ 2))).filterMap
        (fun _ => (none : Option RawItem))).filter isStoryItem :=
  ⟨(hn_firebase_fetch_item_failures_swallowed (fun _ => none) [1, 2, 3]
      ⟨"top", "Top", "hn_firebase", 20, none, none, none, none⟩ 2).1,
   (hn_firebase_fetch_item_failures_swallowed (fun _ => none) [1, 2, 3]
      ⟨"top", "Top", "hn_firebase", 20, none, none, none, none⟩ 2).2.1
     (by decide),
   (hn_firebase_fetch_item_failures_swallowed (fun _ => none) [1, 2, 3]
      ⟨"top", "Top", "hn_firebase", 20, none, none, none, none⟩ 2).2.2 rfl⟩

/-- C9: when `previous_value` is zero or absent the computed `change_percent`
is omitted (`none`) and no division is performed — the zero branch of
`calculate_change` returns before dividing — while `change` is still
`last_value - previous_value` whenever both values are present. -/
theorem calculate_change_zero_or_absent_safe (last p : Rat) :
    calculate_change last none = (none, none) ∧
    (calculate_change last (some 0)).2 = none ∧
    (calculate_change last (some p)).1 = some (last - p) := by
  refine ⟨rfl, ?_, ?_⟩
  · simp [calculate_change]
  · by_cases hp : p = 0 <;> simp [calculate_change, hp]

/-- C4: for a metric whose fetch succeeds with at least two observations,
delivered newest-first by `obs_date` (the connectors' ordering, per the spec —
the fred/ecb/worldbank connector modules are not under src/), the snapshot is
computed from the newest two points: `last_value` is the newest value,
`change = last_value - previous_value`, and (for a nonzero previous value)
`change_percent = change / previous_value * 100`.  The sortedness hypothesis
identifies `observations[0]` and `observations[1]` as the newest two: every
point's `obs_date` is at most the first's, and every later point's at most the
second's. -/
theorem fetch_metrics_snapshot_newest_two (m : MetricEntry) (now : String)
    (o1 o2 : Observation) (rest : List Observation)
    (hsorted : (o1 :: o2 :: rest).Pairwise
      (fun a b => textLe b.obs_date a.obs_date = true))
    (hnz : o2.value ≠ 0) :
    computeMeta m now (o1 :: o2 :: rest) =
      some { id := m.id, name := m.name, source := m.source,
             frequency := m.frequency, unit := m.unit,
             last_value := o1.value, last_updated := now,
             previous_value := some o2.value,
             change := some (o1.value - o2.value),
             change_percent :=
               some ((o1.value - o2.value) / o2.value * 100) } ∧
    (∀ o ∈ o1 :: o2 :: rest, textLe o.obs_date o1.obs_date = true) ∧
    (∀ o ∈ o2 :: rest, textLe o.obs_date o2.obs_date = true) := by
  rcases List.pairwise_cons.mp hsorted with ⟨h1, htail⟩
  rcases List.pairwise_cons.mp htail with ⟨h2, _⟩
  refine ⟨?_, ?_, ?_⟩
  · simp [computeMeta, calculate_change, hnz]
  · intro o ho
    rcases List.mem_cons.mp ho with rfl | ho'
    · exact textLe_refl o.obs_date
    · exact h1 o ho'
  · intro o ho
    rcases List.mem_cons.mp ho with rfl | ho'
    · exact textLe_refl o.obs_date
    · exact h2 o ho'

/-- Witness for C4: the spec's concrete example — observations 100 on
2024-01-01 and 105 on 2024-02-01 for one metric, delivered newest-first —
yields a stored snapshot with `change = 5` and `change_percent = 5`. -/
theorem fetch_metrics_snapshot_newest_two_witness :
    computeMeta ⟨"cpi", "CPI", "fred", "monthly", none⟩ "now"
      [⟨"cpi", "2024-02-01", 105, none, "fred", "x"⟩,
       ⟨"cpi", "2024-01-01", 100, none, "fred", "x"⟩] =
      some ⟨"cpi", "CPI", "fred", "monthly", none, 105, "now", some 100,
            some 5, some 5⟩ := by
  have h := (fetch_metrics_snapshot_newest_two
    ⟨"cpi", "CPI", "fred", "monthly", none⟩ "now"
    ⟨"cpi", "2024-02-01", 105, none, "fred", "x"⟩
    ⟨"cpi", "2024-01-01", 100, none, "fred", "x"⟩ []
    (by decide) (by norm_num)).1
  rw [h]
  norm_num

/-- C8: the ingestion pass is resilient per entry.  A metric whose source tag
is unknown is skipped (the database is untouched by it) without aborting the
remaining metrics — the pass over `m :: rest` always continues with `rest`
regardless of what happened to `m`; a failed per-metric outcome (any exception
inside the try block) likewise leaves the database unchanged for that metric
and the pass continues; the same holds for feeds; and both passes are total
functions of their inputs, so no error propagates past the orchestrator
boundary. -/
theorem ingestion_pass_error_isolation (initFails : String → Bool)
    (outcome : MetricEntry → Except String (List Observation))
    (foutcome : FeedEntry → Except String (List Story)) (now : String)
    (m : MetricEntry) (rest : List MetricEntry) (f : FeedEntry)
    (rest' : List FeedEntry) (db : DB) (e e' : String) :
    (m.source ∉ knownMetricSources →
      processMetric initFails outcome now db m = db) ∧
    fetch_metrics initFails outcome now (m :: rest) db =
      fetch_metrics initFails outcome now rest
        (processMetric initFails outcome now db m) ∧
    (outcome m = .error e → processMetric initFails outcome now db m = db) ∧
    (f.source ∉ knownFeedSources → processFeed foutcome now db f = db) ∧
    (foutcome f = .error e' → processFeed foutcome now db f = db) ∧
    fetch_feeds foutcome now (f :: rest') db =
      fetch_feeds foutcome now rest' (processFeed foutcome now db f) := by
  refine ⟨?_, rfl, ?_, ?_, ?_, rfl⟩
  · intro hunk
    unfold processMetric get_connector
    rw [if_neg hunk]
  · intro herr
    unfold processMetric
    cases get_connector initFails m.source with
    | none => rfl
    | some c => rw [herr]
  · intro hunk
    unfold processFeed
    rw [if_neg hunk]
  · intro herr
    unfold processFeed
    by_cases hf : f.source ∈ knownFeedSources
    · rw [if_pos hf, herr]
    · rw [if_neg hf]

/-- Witness for C8: a metric with source tag `crypto` (unknown) is skipped, a
metric whose fetch outcome is an error leaves the database untouched, and the
same for an unknown-source feed and a failing feed, on the empty database. -/
theorem ingestion_pass_error_isolation_witness :
    processMetric (fun _ => false) (fun _ => .error "boom") "now" ⟨[], [], []⟩
      ⟨"gdp", "GDP", "crypto", "monthly", none⟩ = ⟨[], [], []⟩ ∧
    processMetric (fun _ => false) (fun _ => .error "boom") "now" ⟨[], [], []⟩
      ⟨"gdp", "GDP", "fred", "monthly", none⟩ = ⟨[], [], []⟩ ∧
    processFeed (fun _ => .error "down") "now" ⟨[], [], []⟩
      ⟨"top", "Top", "reddit"⟩ = ⟨[], [], []⟩ ∧
    processFeed (fun _ => .error "down") "now" ⟨[], [], []⟩
      ⟨"top", "Top", "hn_firebase"⟩ = ⟨[], [], []⟩ :=
  ⟨(ingestion_pass_error_isolation (fun _ => false) (fun _ => .error "boom")
      (fun _ => .error "down") "now" ⟨"gdp", "GDP", "crypto", "monthly", none⟩
      [] ⟨"top", "Top", "reddit"⟩ [] ⟨[], [], []⟩ "boom" "down").1
    (by decide),
   (ingestion_pass_error_isolation (fun _ => false) (fun _ => .error "boom")
      (fun _ => .error "down") "now" ⟨"gdp", "GDP", "fred", "monthly", none⟩
      [] ⟨"top", "Top", "reddit"⟩ [] ⟨[], [], []⟩ "boom" "down").2.2.1 rfl,
   (ingestion_pass_error_isolation (fun _ => false) (fun _ => .error "boom")
      (fun _ => .error "down") "now" ⟨"gdp", "GDP", "fred", "monthly", none⟩
      [] ⟨"top", "Top", "reddit"⟩ [] ⟨[], [], []⟩ "boom" "down").2.2.2.1
    (by decide),
   (ingestion_pass_error_isolation (fun _ => false) (fun _ => .error "boom")
      (fun _ => .error "down") "now" ⟨"gdp", "GDP", "fred", "monthly", none⟩
      [] ⟨"top", "Top", "hn_firebase"⟩ [] ⟨[], [], []⟩ "boom" "down").2.2.2.2.1
    rfl⟩

end BloombergLite
